import Mathlib

/-!
# TitanOptions (gorocksdb, `titan_options.go`)

A shallow embedding of the Go wrapper around the native TitanDB option object.

* Go integers are mathematical integers (`Nat` for unsigned types, `Int` for signed ones);
  every cgo conversion `C.T(x)` is modelled by an explicit reduction modulo `2^w`.
* A native option object is a record with one field per option; a handle is the address of
  such an object, and `World.heap` gives the record found at each address.
* Every call that crosses the foreign-function boundary is recorded in `World.log`, so that
  "what the wrapper hands to the native setter" is a statement about the log.
-/

namespace Titan

/-! ## Values crossing the boundary -/

/-- A byte of a Go string or of a C character buffer. -/
abbrev Byte := Fin 256

/-- Address of a native `titandb_options_t` object (the Go field `c *C.titandb_options_t`). -/
abbrev Handle := Nat

namespace C

/-- The cgo conversion `C.int(x)` of a Go integer to the native 32-bit signed `int`:
the low 32 bits of `x`, read as a two's complement number. -/
def int (x : Int) : Int :=
  let u := x % 4294967296
  if u < 2147483648 then u else u - 4294967296

/-- The cgo conversion `C.int32_t(x)`; same width and signedness as `C.int`. -/
def int32_t (x : Int) : Int :=
  let u := x % 4294967296
  if u < 2147483648 then u else u - 4294967296

/-- The cgo conversion `C.uint(x)` to the native 32-bit `unsigned int`: the low 32 bits. -/
def uint (x : Nat) : Nat := x % 4294967296

/-- The cgo conversion `C.uint64_t(x)` to the native 64-bit unsigned integer. -/
def uint64_t (x : Nat) : Nat := x % 18446744073709551616

/-- The cgo conversion `C.double(x)` of a Go `float64`. Both sides are IEEE-754 binary64, and a
value is represented here by its 64-bit pattern, which the conversion leaves untouched. -/
def double (bits : Nat) : Nat := bits

/-- The cgo helper `C.CString(s)`: a fresh C buffer holding the bytes of `s` followed by a
terminating NUL byte. -/
def CString (s : List Byte) : List Byte := s ++ [0]

/-- The string a native function reads from a `const char*` buffer: the bytes that come
before the first NUL byte. -/
def strread (buf : List Byte) : List Byte := buf.takeWhile (fun b => b ≠ 0)

end C

/-! ## The Go declarations of `titan_options.go` -/

/-- Go: `type TitanBlobRunMode uint`. -/
abbrev TitanBlobRunMode := Nat

/-- Go constant `Normal TitanBlobRunMode = 0`: Titan processes reads and writes as normal. -/
def Normal : TitanBlobRunMode := 0

/-- Go constant `ReadOnly TitanBlobRunMode = 1`: Titan stops writing values into blob files. -/
def ReadOnly : TitanBlobRunMode := 1

/-- Go constant `Fallback TitanBlobRunMode = 2`: blob indexes are converted back to values. -/
def Fallback : TitanBlobRunMode := 2

/-- Go: `type TitanOptions struct { c *C.titandb_options_t }`. -/
structure TitanOptions where
  c : Handle
deriving DecidableEq, Repr

/-- Modelled from the spec: the struct `CompressionOptions` is declared in another file of the
package, not in `titan_options.go`. The spec lists its content as "window size, level,
strategy, max dictionary bytes, max training bytes for dictionary construction", and the
comment on `SetCompressionOptions` names a further `enabled` option that is ignored. The five
fields read by `SetCompressionOptions` are Go integers of type `int` (64 bits wide on the usual
target, like the argument of `SetMaxSortedRuns`), each passed through `C.int`; `Enabled` stands
for everything else the struct carries. -/
structure CompressionOptions where
  WindowBits : Int
  Level : Int
  Strategy : Int
  MaxDictBytes : Int
  ZstdMaxTrainBytes : Int
  Enabled : Bool
deriving DecidableEq, Repr

/-- Modelled from the spec: `CompressionType` ("compression algorithm for blob files") is an
integer type declared in another file of the package; only its numeric value is used here. -/
abbrev CompressionType := Int

/-! ## The native side -/

/-- The native option object behind a handle: one field per option that `titan/c.h` lets the
wrapper set. Boolean options are stored as the `unsigned char` they are passed as, the two
ratios as their binary64 bit pattern. -/
@[ext]
structure titandb_options_t where
  dirname : List Byte
  min_blob_size : Nat
  gc_merge_rewrite : Nat
  blob_file_compression : Int
  compression_options : List Int
  disable_background_gc : Nat
  level_merge : Nat
  range_merge : Nat
  max_sorted_runs : Int
  max_gc_batch_size : Nat
  min_gc_batch_size : Nat
  blob_file_discardable_ratio : Nat
  sample_file_size_ratio : Nat
  merge_small_file_threshold : Nat
  max_background_gc : Int
  purge_obsolete_files_period_sec : Nat
  blob_run_mode : Int
deriving DecidableEq, Repr

/-- The names of the options of a native option object. -/
inductive OptionName
  | dirname
  | min_blob_size
  | gc_merge_rewrite
  | blob_file_compression
  | compression_options
  | disable_background_gc
  | level_merge
  | range_merge
  | max_sorted_runs
  | max_gc_batch_size
  | min_gc_batch_size
  | blob_file_discardable_ratio
  | sample_file_size_ratio
  | merge_small_file_threshold
  | max_background_gc
  | purge_obsolete_files_period_sec
  | blob_run_mode
deriving DecidableEq, Repr

/-- The content of one field of a native option object. -/
inductive FieldValue
  | bytes (s : List Byte)
  | nat (n : Nat)
  | int (i : Int)
  | ints (l : List Int)
deriving DecidableEq, Repr

/-- Reads the field of a native option object that belongs to an option name. -/
def getField (o : OptionName) (r : titandb_options_t) : FieldValue :=
  match o with
  | .dirname => .bytes r.dirname
  | .min_blob_size => .nat r.min_blob_size
  | .gc_merge_rewrite => .nat r.gc_merge_rewrite
  | .blob_file_compression => .int r.blob_file_compression
  | .compression_options => .ints r.compression_options
  | .disable_background_gc => .nat r.disable_background_gc
  | .level_merge => .nat r.level_merge
  | .range_merge => .nat r.range_merge
  | .max_sorted_runs => .int r.max_sorted_runs
  | .max_gc_batch_size => .nat r.max_gc_batch_size
  | .min_gc_batch_size => .nat r.min_gc_batch_size
  | .blob_file_discardable_ratio => .nat r.blob_file_discardable_ratio
  | .sample_file_size_ratio => .nat r.sample_file_size_ratio
  | .merge_small_file_threshold => .nat r.merge_small_file_threshold
  | .max_background_gc => .int r.max_background_gc
  | .purge_obsolete_files_period_sec => .nat r.purge_obsolete_files_period_sec
  | .blob_run_mode => .int r.blob_run_mode

/-- A call of a function of `titan/c.h`, with the arguments it is given, in the order of the
native parameter list. -/
inductive NativeCall
  | titandb_options_create
  | titandb_options_set_dirname (opts : Handle) (name : List Byte)
  | titandb_options_set_min_blob_size (opts : Handle) (size : Nat)
  | titandb_options_set_gc_merge_rewrite (opts : Handle) (v : Nat)
  | titandb_options_set_blob_file_compression (opts : Handle) (v : Int)
  | titandb_options_set_compression_options (opts : Handle) (a1 a2 a3 a4 a5 : Int)
  | titandb_options_set_disable_background_gc (opts : Handle) (v : Nat)
  | titandb_options_set_level_merge (opts : Handle) (v : Nat)
  | titandb_options_set_range_merge (opts : Handle) (v : Nat)
  | titandb_options_set_max_sorted_runs (opts : Handle) (v : Int)
  | titandb_options_set_max_gc_batch_size (opts : Handle) (v : Nat)
  | titandb_options_set_min_gc_batch_size (opts : Handle) (v : Nat)
  | titandb_options_set_blob_file_discardable_ratio (opts : Handle) (v : Nat)
  | titandb_options_set_sample_file_size_ratio (opts : Handle) (v : Nat)
  | titandb_options_set_merge_small_file_threshold (opts : Handle) (v : Nat)
  | titandb_options_set_max_background_gc (opts : Handle) (v : Int)
  | titandb_options_set_purge_obsolete_files_period_sec (opts : Handle) (v : Nat)
  | titandb_options_set_blob_run_mode (opts : Handle) (v : Int)
deriving DecidableEq, Repr

namespace NativeCall

/-- The option object a native call works on; the create call works on none. -/
def handle : NativeCall → Option Handle
  | titandb_options_create => none
  | titandb_options_set_dirname c _ => some c
  | titandb_options_set_min_blob_size c _ => some c
  | titandb_options_set_gc_merge_rewrite c _ => some c
  | titandb_options_set_blob_file_compression c _ => some c
  | titandb_options_set_compression_options c _ _ _ _ _ => some c
  | titandb_options_set_disable_background_gc c _ => some c
  | titandb_options_set_level_merge c _ => some c
  | titandb_options_set_range_merge c _ => some c
  | titandb_options_set_max_sorted_runs c _ => some c
  | titandb_options_set_max_gc_batch_size c _ => some c
  | titandb_options_set_min_gc_batch_size c _ => some c
  | titandb_options_set_blob_file_discardable_ratio c _ => some c
  | titandb_options_set_sample_file_size_ratio c _ => some c
  | titandb_options_set_merge_small_file_threshold c _ => some c
  | titandb_options_set_max_background_gc c _ => some c
  | titandb_options_set_purge_obsolete_files_period_sec c _ => some c
  | titandb_options_set_blob_run_mode c _ => some c

/-- The option a native setter is the setter of, read off its name; the create call is the
setter of none. -/
def option : NativeCall → Option OptionName
  | titandb_options_create => none
  | titandb_options_set_dirname _ _ => some .dirname
  | titandb_options_set_min_blob_size _ _ => some .min_blob_size
  | titandb_options_set_gc_merge_rewrite _ _ => some .gc_merge_rewrite
  | titandb_options_set_blob_file_compression _ _ => some .blob_file_compression
  | titandb_options_set_compression_options _ _ _ _ _ _ => some .compression_options
  | titandb_options_set_disable_background_gc _ _ => some .disable_background_gc
  | titandb_options_set_level_merge _ _ => some .level_merge
  | titandb_options_set_range_merge _ _ => some .range_merge
  | titandb_options_set_max_sorted_runs _ _ => some .max_sorted_runs
  | titandb_options_set_max_gc_batch_size _ _ => some .max_gc_batch_size
  | titandb_options_set_min_gc_batch_size _ _ => some .min_gc_batch_size
  | titandb_options_set_blob_file_discardable_ratio _ _ => some .blob_file_discardable_ratio
  | titandb_options_set_sample_file_size_ratio _ _ => some .sample_file_size_ratio
  | titandb_options_set_merge_small_file_threshold _ _ => some .merge_small_file_threshold
  | titandb_options_set_max_background_gc _ _ => some .max_background_gc
  | titandb_options_set_purge_obsolete_files_period_sec _ _ => some .purge_obsolete_files_period_sec
  | titandb_options_set_blob_run_mode _ _ => some .blob_run_mode

/-- The argument of a native setter, as the value of the field it is stored in: a C string
argument is the string read from the buffer, the five compression arguments keep their order. -/
def argument : NativeCall → FieldValue
  | titandb_options_create => .ints []
  | titandb_options_set_dirname _ name => .bytes (C.strread name)
  | titandb_options_set_min_blob_size _ v => .nat v
  | titandb_options_set_gc_merge_rewrite _ v => .nat v
  | titandb_options_set_blob_file_compression _ v => .int v
  | titandb_options_set_compression_options _ a1 a2 a3 a4 a5 => .ints [a1, a2, a3, a4, a5]
  | titandb_options_set_disable_background_gc _ v => .nat v
  | titandb_options_set_level_merge _ v => .nat v
  | titandb_options_set_range_merge _ v => .nat v
  | titandb_options_set_max_sorted_runs _ v => .int v
  | titandb_options_set_max_gc_batch_size _ v => .nat v
  | titandb_options_set_min_gc_batch_size _ v => .nat v
  | titandb_options_set_blob_file_discardable_ratio _ v => .nat v
  | titandb_options_set_sample_file_size_ratio _ v => .nat v
  | titandb_options_set_merge_small_file_threshold _ v => .nat v
  | titandb_options_set_max_background_gc _ v => .int v
  | titandb_options_set_purge_obsolete_files_period_sec _ v => .nat v
  | titandb_options_set_blob_run_mode _ v => .int v

/-- Modelled from the spec: the native library behind `titan/c.h` is not part of the sources.
Following the spec ("option-struct-plus-setter pattern", one row per option in the table of
recognised options), each `titandb_options_set_X` stores its argument in the option `X` of the
object it is called on and touches nothing else. -/
def store (k : NativeCall) (r : titandb_options_t) : titandb_options_t :=
  match k with
  | titandb_options_create => r
  | titandb_options_set_dirname _ name => { r with dirname := C.strread name }
  | titandb_options_set_min_blob_size _ v => { r with min_blob_size := v }
  | titandb_options_set_gc_merge_rewrite _ v => { r with gc_merge_rewrite := v }
  | titandb_options_set_blob_file_compression _ v => { r with blob_file_compression := v }
  | titandb_options_set_compression_options _ a1 a2 a3 a4 a5 =>
      { r with compression_options := [a1, a2, a3, a4, a5] }
  | titandb_options_set_disable_background_gc _ v => { r with disable_background_gc := v }
  | titandb_options_set_level_merge _ v => { r with level_merge := v }
  | titandb_options_set_range_merge _ v => { r with range_merge := v }
  | titandb_options_set_max_sorted_runs _ v => { r with max_sorted_runs := v }
  | titandb_options_set_max_gc_batch_size _ v => { r with max_gc_batch_size := v }
  | titandb_options_set_min_gc_batch_size _ v => { r with min_gc_batch_size := v }
  | titandb_options_set_blob_file_discardable_ratio _ v =>
      { r with blob_file_discardable_ratio := v }
  | titandb_options_set_sample_file_size_ratio _ v => { r with sample_file_size_ratio := v }
  | titandb_options_set_merge_small_file_threshold _ v =>
      { r with merge_small_file_threshold := v }
  | titandb_options_set_max_background_gc _ v => { r with max_background_gc := v }
  | titandb_options_set_purge_obsolete_files_period_sec _ v =>
      { r with purge_obsolete_files_period_sec := v }
  | titandb_options_set_blob_run_mode _ v => { r with blob_run_mode := v }

end NativeCall

/-- The state on the native side of the boundary: the option object found at each handle, the
next address the native allocator hands out, and the native calls made so far, oldest first. -/
structure World where
  heap : Handle → titandb_options_t
  next : Handle
  log : List NativeCall

namespace World

/-- Performs a native setter call: the call is logged and the object it is called on is
updated by `NativeCall.store`; every other object is left alone. -/
def native (k : NativeCall) (w : World) : World :=
  match k.handle with
  | none => { w with log := w.log ++ [k] }
  | some c => { w with log := w.log ++ [k], heap := Function.update w.heap c (k.store (w.heap c)) }

end World

/-- Modelled from the spec: the native `titandb_options_create()`, which is not part of the
sources. It allocates a new option object holding the native library's default values (the
"Default" column of the spec's option table), taken here as the parameter `defaults`, and
returns its handle. -/
def titandb_options_create (defaults : titandb_options_t) (w : World) : Handle × World :=
  (w.next,
   { heap := Function.update w.heap w.next defaults,
     next := w.next + 1,
     log := w.log ++ [NativeCall.titandb_options_create] })

/-! ## The Go functions of `titan_options.go` -/

/-- Go: `func NewNativeTitanOptions(c *C.titandb_options_t) *TitanOptions`, which returns
`&TitanOptions{c: c}`. -/
def NewNativeTitanOptions (c : Handle) : TitanOptions := { c := c }

/-- Go: `func NewDefaultTitanOptions() *TitanOptions`, which returns
`NewNativeTitanOptions(C.titandb_options_create())`. -/
def NewDefaultTitanOptions (defaults : titandb_options_t) (w : World) : TitanOptions × World :=
  let r := titandb_options_create defaults w
  (NewNativeTitanOptions r.1, r.2)

namespace TitanOptions

/-- Go: `SetDirname(value string)`. The C copy made by `C.CString` is handed to the native
setter and freed afterwards. -/
def SetDirname (opts : TitanOptions) (value : List Byte) (w : World) : World :=
  let cvalue := C.CString value
  w.native (.titandb_options_set_dirname opts.c cvalue)

/-- Go: `SetMinBlobSize(value uint64)`. -/
def SetMinBlobSize (opts : TitanOptions) (value : Nat) (w : World) : World :=
  w.native (.titandb_options_set_min_blob_size opts.c (C.uint64_t value))

/-- Go: `SetGCMergeRewrite(value bool)`. The helper `boolToChar` is declared in another file of
the package and is taken as a parameter. -/
def SetGCMergeRewrite (boolToChar : Bool → Nat) (opts : TitanOptions) (value : Bool)
    (w : World) : World :=
  w.native (.titandb_options_set_gc_merge_rewrite opts.c (boolToChar value))

/-- Go: `SetBlobFileCompression(value CompressionType)`. -/
def SetBlobFileCompression (opts : TitanOptions) (value : CompressionType) (w : World) : World :=
  w.native (.titandb_options_set_blob_file_compression opts.c (C.int value))

/-- Go: `SetCompressionOptions(value *CompressionOptions)`. The argument is a pointer: `none`
is the nil pointer, whose dereference `value.WindowBits` panics before the native call is
made; the result `none` stands for that panic. -/
def SetCompressionOptions (opts : TitanOptions) (value : Option CompressionOptions)
    (w : World) : Option World :=
  match value with
  | none => none
  | some v =>
      some (w.native (.titandb_options_set_compression_options opts.c
        (C.int v.WindowBits) (C.int v.Level) (C.int v.Strategy) (C.int v.MaxDictBytes)
        (C.int v.ZstdMaxTrainBytes)))

/-- Go: `SetDisableBackgroundGC(value bool)`. -/
def SetDisableBackgroundGC (boolToChar : Bool → Nat) (opts : TitanOptions) (value : Bool)
    (w : World) : World :=
  w.native (.titandb_options_set_disable_background_gc opts.c (boolToChar value))

/-- Go: `SetLevelMerge(value bool)`. -/
def SetLevelMerge (boolToChar : Bool → Nat) (opts : TitanOptions) (value : Bool)
    (w : World) : World :=
  w.native (.titandb_options_set_level_merge opts.c (boolToChar value))

/-- Go: `SetRangeMerge(value bool)`. -/
def SetRangeMerge (boolToChar : Bool → Nat) (opts : TitanOptions) (value : Bool)
    (w : World) : World :=
  w.native (.titandb_options_set_range_merge opts.c (boolToChar value))

/-- Go: `SetMaxSortedRuns(value int)`. -/
def SetMaxSortedRuns (opts : TitanOptions) (value : Int) (w : World) : World :=
  w.native (.titandb_options_set_max_sorted_runs opts.c (C.int value))

/-- Go: `SetMaxGCBatchSize(value uint64)`. -/
def SetMaxGCBatchSize (opts : TitanOptions) (value : Nat) (w : World) : World :=
  w.native (.titandb_options_set_max_gc_batch_size opts.c (C.uint64_t value))

/-- Go: `SetMinGCBatchSize(value uint64)`. -/
def SetMinGCBatchSize (opts : TitanOptions) (value : Nat) (w : World) : World :=
  w.native (.titandb_options_set_min_gc_batch_size opts.c (C.uint64_t value))

/-- Go: `SetBlobFileDiscardableRatio(value float64)`; `value` is the bit pattern. -/
def SetBlobFileDiscardableRatio (opts : TitanOptions) (value : Nat) (w : World) : World :=
  w.native (.titandb_options_set_blob_file_discardable_ratio opts.c (C.double value))

/-- Go: `SetSampleFileSizeRatio(value float64)`; `value` is the bit pattern. -/
def SetSampleFileSizeRatio (opts : TitanOptions) (value : Nat) (w : World) : World :=
  w.native (.titandb_options_set_sample_file_size_ratio opts.c (C.double value))

/-- Go: `SetMergeSmallFileThreshould(value uint64)`. -/
def SetMergeSmallFileThreshould (opts : TitanOptions) (value : Nat) (w : World) : World :=
  w.native (.titandb_options_set_merge_small_file_threshold opts.c (C.uint64_t value))

/-- Go: `SetMaxBackgroundGC(value int32)`. -/
def SetMaxBackgroundGC (opts : TitanOptions) (value : Int) (w : World) : World :=
  w.native (.titandb_options_set_max_background_gc opts.c (C.int32_t value))

/-- Go: `SetPurgeObsoleteFilesPeriodSec(value uint)`. -/
def SetPurgeObsoleteFilesPeriodSec (opts : TitanOptions) (value : Nat) (w : World) : World :=
  w.native (.titandb_options_set_purge_obsolete_files_period_sec opts.c (C.uint value))

/-- Go: `SetBlobRunMode(value TitanBlobRunMode)`. -/
def SetBlobRunMode (opts : TitanOptions) (value : TitanBlobRunMode) (w : World) : World :=
  w.native (.titandb_options_set_blob_run_mode opts.c (C.int value))

end TitanOptions

/-! ## All setter invocations at once -/

/-- One invocation of a setter method of `TitanOptions`, with its Go argument. The argument of
`SetCompressionOptions` is a pointer, `none` being the nil pointer. -/
inductive Setter
  | SetDirname (value : List Byte)
  | SetMinBlobSize (value : Nat)
  | SetGCMergeRewrite (value : Bool)
  | SetBlobFileCompression (value : CompressionType)
  | SetCompressionOptions (value : Option CompressionOptions)
  | SetDisableBackgroundGC (value : Bool)
  | SetLevelMerge (value : Bool)
  | SetRangeMerge (value : Bool)
  | SetMaxSortedRuns (value : Int)
  | SetMaxGCBatchSize (value : Nat)
  | SetMinGCBatchSize (value : Nat)
  | SetBlobFileDiscardableRatio (value : Nat)
  | SetSampleFileSizeRatio (value : Nat)
  | SetMergeSmallFileThreshould (value : Nat)
  | SetMaxBackgroundGC (value : Int)
  | SetPurgeObsoleteFilesPeriodSec (value : Nat)
  | SetBlobRunMode (value : TitanBlobRunMode)
deriving DecidableEq, Repr

namespace Setter

/-- The option a setter method is named after. -/
def option : Setter → OptionName
  | SetDirname _ => .dirname
  | SetMinBlobSize _ => .min_blob_size
  | SetGCMergeRewrite _ => .gc_merge_rewrite
  | SetBlobFileCompression _ => .blob_file_compression
  | SetCompressionOptions _ => .compression_options
  | SetDisableBackgroundGC _ => .disable_background_gc
  | SetLevelMerge _ => .level_merge
  | SetRangeMerge _ => .range_merge
  | SetMaxSortedRuns _ => .max_sorted_runs
  | SetMaxGCBatchSize _ => .max_gc_batch_size
  | SetMinGCBatchSize _ => .min_gc_batch_size
  | SetBlobFileDiscardableRatio _ => .blob_file_discardable_ratio
  | SetSampleFileSizeRatio _ => .sample_file_size_ratio
  | SetMergeSmallFileThreshould _ => .merge_small_file_threshold
  | SetMaxBackgroundGC _ => .max_background_gc
  | SetPurgeObsoleteFilesPeriodSec _ => .purge_obsolete_files_period_sec
  | SetBlobRunMode _ => .blob_run_mode

/-- Runs a setter invocation on a receiver: the Go method of that name is called. The result
is `none` when the method panics. -/
def run (boolToChar : Bool → Nat) (s : Setter) (opts : TitanOptions) (w : World) :
    Option World :=
  match s with
  | SetDirname v => some (opts.SetDirname v w)
  | SetMinBlobSize v => some (opts.SetMinBlobSize v w)
  | SetGCMergeRewrite v => some (opts.SetGCMergeRewrite boolToChar v w)
  | SetBlobFileCompression v => some (opts.SetBlobFileCompression v w)
  | SetCompressionOptions v => opts.SetCompressionOptions v w
  | SetDisableBackgroundGC v => some (opts.SetDisableBackgroundGC boolToChar v w)
  | SetLevelMerge v => some (opts.SetLevelMerge boolToChar v w)
  | SetRangeMerge v => some (opts.SetRangeMerge boolToChar v w)
  | SetMaxSortedRuns v => some (opts.SetMaxSortedRuns v w)
  | SetMaxGCBatchSize v => some (opts.SetMaxGCBatchSize v w)
  | SetMinGCBatchSize v => some (opts.SetMinGCBatchSize v w)
  | SetBlobFileDiscardableRatio v => some (opts.SetBlobFileDiscardableRatio v w)
  | SetSampleFileSizeRatio v => some (opts.SetSampleFileSizeRatio v w)
  | SetMergeSmallFileThreshould v => some (opts.SetMergeSmallFileThreshould v w)
  | SetMaxBackgroundGC v => some (opts.SetMaxBackgroundGC v w)
  | SetPurgeObsoleteFilesPeriodSec v => some (opts.SetPurgeObsoleteFilesPeriodSec v w)
  | SetBlobRunMode v => some (opts.SetBlobRunMode v w)

/-- The converted argument of a setter invocation, written from the wording of property C8 and
not from the bodies of the Go methods: the Go argument after the conversion to the type of the
native parameter, as a value of the field it is meant for. A string is converted to the C
string its NUL-terminated copy denotes, a bool by `boolToChar`, the five fields of the
compression options in the order WindowBits, Level, Strategy, MaxDictBytes,
ZstdMaxTrainBytes. A nil pointer has nothing to convert: `none`. -/
def converted (boolToChar : Bool → Nat) : Setter → Option FieldValue
  | SetDirname v => some (.bytes (C.strread (C.CString v)))
  | SetMinBlobSize v => some (.nat (C.uint64_t v))
  | SetGCMergeRewrite v => some (.nat (boolToChar v))
  | SetBlobFileCompression v => some (.int (C.int v))
  | SetCompressionOptions none => none
  | SetCompressionOptions (some v) =>
      some (.ints [C.int v.WindowBits, C.int v.Level, C.int v.Strategy, C.int v.MaxDictBytes,
        C.int v.ZstdMaxTrainBytes])
  | SetDisableBackgroundGC v => some (.nat (boolToChar v))
  | SetLevelMerge v => some (.nat (boolToChar v))
  | SetRangeMerge v => some (.nat (boolToChar v))
  | SetMaxSortedRuns v => some (.int (C.int v))
  | SetMaxGCBatchSize v => some (.nat (C.uint64_t v))
  | SetMinGCBatchSize v => some (.nat (C.uint64_t v))
  | SetBlobFileDiscardableRatio v => some (.nat (C.double v))
  | SetSampleFileSizeRatio v => some (.nat (C.double v))
  | SetMergeSmallFileThreshould v => some (.nat (C.uint64_t v))
  | SetMaxBackgroundGC v => some (.int (C.int32_t v))
  | SetPurgeObsoleteFilesPeriodSec v => some (.nat (C.uint v))
  | SetBlobRunMode v => some (.int (C.int v))

end Setter

/-! ## The value router of the engine -/

/-- Where the engine keeps a written value. -/
inductive Storage
  | inline
  | blob
deriving DecidableEq, Repr

/-- Modelled from the spec: the ValueRouter of the native engine, which is not part of the
sources. Spec 4.1: "route to inline storage if `len(value) < min_blob_size`, else append to the
currently open BlobFile" (the LSM entry is then a blob index record); spec 4.6: in run mode
`ReadOnly` the "ValueRouter inlines all new writes regardless of size threshold". The router
reads both options from the option object it is configured with; `len` is the value length. -/
def ValueRouter (r : titandb_options_t) (len : Nat) : Storage :=
  if r.blob_run_mode = (ReadOnly : Int) then Storage.inline
  else if len < r.min_blob_size then Storage.inline
  else Storage.blob

/-! ## Concrete data for examples -/

/-- Modelled from the spec: the "Default" column of the option table in spec section 6, used as
the native defaults in examples. The directory default is relative to the database path and
the compression options have no listed default; both are left empty here. The two ratios 0.5
and 0.1 are given by their binary64 bit patterns. -/
def tableDefaults : titandb_options_t :=
  { dirname := []
    min_blob_size := 4096
    gc_merge_rewrite := 0
    blob_file_compression := 0
    compression_options := []
    disable_background_gc := 0
    level_merge := 0
    range_merge := 0
    max_sorted_runs := 20
    max_gc_batch_size := 1073741824
    min_gc_batch_size := 536870912
    blob_file_discardable_ratio := 4602678819172646912
    sample_file_size_ratio := 4591870180066957722
    merge_small_file_threshold := 8388608
    max_background_gc := 1
    purge_obsolete_files_period_sec := 10
    blob_run_mode := 0 }

/-- A native state before any call: every address holds the table defaults. -/
def World.boot : World := { heap := fun _ => tableDefaults, next := 0, log := [] }

/-- An option object with handle 0, as a receiver in examples. -/
def opts0 : TitanOptions := NewNativeTitanOptions 0

/-! ## Conversion lemmas -/

theorem C.int_of_fits (x : Int) (hlo : -2147483648 ≤ x) (hhi : x < 2147483648) : C.int x = x := by
  unfold C.int
  simp only
  split <;> omega

theorem C.int_range (x : Int) : -2147483648 ≤ C.int x ∧ C.int x < 2147483648 := by
  unfold C.int
  simp only
  split <;> omega

theorem C.int_congruent (x : Int) : (C.int x - x) % 4294967296 = 0 := by
  unfold C.int
  simp only
  split <;> omega

theorem C.int32_t_of_fits (x : Int) (hlo : -2147483648 ≤ x) (hhi : x < 2147483648) :
    C.int32_t x = x := by
  unfold C.int32_t
  simp only
  split <;> omega

theorem C.uint64_t_of_fits (x : Nat) (h : x < 18446744073709551616) : C.uint64_t x = x :=
  Nat.mod_eq_of_lt h

/-! ## Lemmas on the native state -/

theorem World.native_log (k : NativeCall) (w : World) : (w.native k).log = w.log ++ [k] := by
  unfold World.native
  cases k.handle <;> rfl

theorem World.native_next (k : NativeCall) (w : World) : (w.native k).next = w.next := by
  unfold World.native
  cases k.handle <;> rfl

theorem World.native_heap (k : NativeCall) (w : World) (c : Handle) (h : k.handle = some c) :
    (w.native k).heap = Function.update w.heap c (k.store (w.heap c)) := by
  unfold World.native
  rw [h]

theorem World.native_heap_self (k : NativeCall) (w : World) (c : Handle)
    (h : k.handle = some c) : (w.native k).heap c = k.store (w.heap c) := by
  rw [World.native_heap k w c h]
  exact Function.update_same _ _ _

theorem World.native_heap_other (k : NativeCall) (w : World) (c d : Handle)
    (h : k.handle = some c) (hd : d ≠ c) : (w.native k).heap d = w.heap d := by
  rw [World.native_heap k w c h]
  exact Function.update_noteq hd _ _

theorem World.native_native_heap (k1 k2 : NativeCall) (w : World) (c : Handle)
    (h1 : k1.handle = some c) (h2 : k2.handle = some c) :
    ((w.native k1).native k2).heap =
      Function.update w.heap c (k2.store (k1.store (w.heap c))) := by
  rw [World.native_heap k2 _ c h2, World.native_heap_self k1 w c h1,
    World.native_heap k1 w c h1]
  exact Function.update_idem _ _ _

theorem getField_store (k : NativeCall) (r : titandb_options_t) (o : OptionName) :
    getField o (k.store r) = if k.option = some o then k.argument else getField o r := by
  cases k <;> cases o <;> rfl

theorem titandb_options_t.eq_of_getField (r1 r2 : titandb_options_t)
    (h : ∀ o : OptionName, getField o r1 = getField o r2) : r1 = r2 :=
  titandb_options_t.ext
    (FieldValue.bytes.inj (h .dirname))
    (FieldValue.nat.inj (h .min_blob_size))
    (FieldValue.nat.inj (h .gc_merge_rewrite))
    (FieldValue.int.inj (h .blob_file_compression))
    (FieldValue.ints.inj (h .compression_options))
    (FieldValue.nat.inj (h .disable_background_gc))
    (FieldValue.nat.inj (h .level_merge))
    (FieldValue.nat.inj (h .range_merge))
    (FieldValue.int.inj (h .max_sorted_runs))
    (FieldValue.nat.inj (h .max_gc_batch_size))
    (FieldValue.nat.inj (h .min_gc_batch_size))
    (FieldValue.nat.inj (h .blob_file_discardable_ratio))
    (FieldValue.nat.inj (h .sample_file_size_ratio))
    (FieldValue.nat.inj (h .merge_small_file_threshold))
    (FieldValue.int.inj (h .max_background_gc))
    (FieldValue.nat.inj (h .purge_obsolete_files_period_sec))
    (FieldValue.int.inj (h .blob_run_mode))

theorem NativeCall.store_overwrite (k1 k2 : NativeCall) (r : titandb_options_t) (o : OptionName)
    (h1 : k1.option = some o) (h2 : k2.option = some o) :
    k2.store (k1.store r) = k2.store r := by
  apply titandb_options_t.eq_of_getField
  intro p
  rw [getField_store, getField_store, getField_store, h1, h2]
  by_cases hp : some o = some p
  · rw [if_pos hp]
    rw [if_pos hp]
  · rw [if_neg hp, if_neg hp, if_neg hp]

theorem NativeCall.store_comm (k1 k2 : NativeCall) (r : titandb_options_t) (o1 o2 : OptionName)
    (h1 : k1.option = some o1) (h2 : k2.option = some o2) (hne : o1 ≠ o2) :
    k2.store (k1.store r) = k1.store (k2.store r) := by
  apply titandb_options_t.eq_of_getField
  intro p
  rw [getField_store, getField_store, getField_store, getField_store, h1, h2]
  by_cases hp1 : some o1 = some p
  · have hp2 : ¬ some o2 = some p := by
      intro h
      exact hne (Option.some.inj (hp1.trans h.symm))
    simp only [if_pos hp1, if_neg hp2]
  · simp only [if_neg hp1]

theorem Setter.run_of_converted (boolToChar : Bool → Nat) (s : Setter) (opts : TitanOptions)
    (a : FieldValue) (ha : s.converted boolToChar = some a) :
    ∃ k : NativeCall, k.handle = some opts.c ∧ k.option = some s.option ∧ k.argument = a ∧
      ∀ w : World, s.run boolToChar opts w = some (w.native k) := by
  cases s with
  | SetDirname v =>
    cases ha
    exact ⟨.titandb_options_set_dirname opts.c (C.CString v),
      rfl, rfl, rfl, fun _ => rfl⟩
  | SetMinBlobSize v =>
    cases ha
    exact ⟨.titandb_options_set_min_blob_size opts.c (C.uint64_t v),
      rfl, rfl, rfl, fun _ => rfl⟩
  | SetGCMergeRewrite v =>
    cases ha
    exact ⟨.titandb_options_set_gc_merge_rewrite opts.c (boolToChar v),
      rfl, rfl, rfl, fun _ => rfl⟩
  | SetBlobFileCompression v =>
    cases ha
    exact ⟨.titandb_options_set_blob_file_compression opts.c (C.int v),
      rfl, rfl, rfl, fun _ => rfl⟩
  | SetCompressionOptions p =>
    cases p with
    | none => cases ha
    | some v =>
      cases ha
      exact ⟨.titandb_options_set_compression_options opts.c (C.int v.WindowBits)
        (C.int v.Level) (C.int v.Strategy) (C.int v.MaxDictBytes) (C.int v.ZstdMaxTrainBytes),
        rfl, rfl, rfl, fun _ => rfl⟩
  | SetDisableBackgroundGC v =>
    cases ha
    exact ⟨.titandb_options_set_disable_background_gc opts.c (boolToChar v),
      rfl, rfl, rfl, fun _ => rfl⟩
  | SetLevelMerge v =>
    cases ha
    exact ⟨.titandb_options_set_level_merge opts.c (boolToChar v),
      rfl, rfl, rfl, fun _ => rfl⟩
  | SetRangeMerge v =>
    cases ha
    exact ⟨.titandb_options_set_range_merge opts.c (boolToChar v),
      rfl, rfl, rfl, fun _ => rfl⟩
  | SetMaxSortedRuns v =>
    cases ha
    exact ⟨.titandb_options_set_max_sorted_runs opts.c (C.int v),
      rfl, rfl, rfl, fun _ => rfl⟩
  | SetMaxGCBatchSize v =>
    cases ha
    exact ⟨.titandb_options_set_max_gc_batch_size opts.c (C.uint64_t v),
      rfl, rfl, rfl, fun _ => rfl⟩
  | SetMinGCBatchSize v =>
    cases ha
    exact ⟨.titandb_options_set_min_gc_batch_size opts.c (C.uint64_t v),
      rfl, rfl, rfl, fun _ => rfl⟩
  | SetBlobFileDiscardableRatio v =>
    cases ha
    exact ⟨.titandb_options_set_blob_file_discardable_ratio opts.c (C.double v),
      rfl, rfl, rfl, fun _ => rfl⟩
  | SetSampleFileSizeRatio v =>
    cases ha
    exact ⟨.titandb_options_set_sample_file_size_ratio opts.c (C.double v),
      rfl, rfl, rfl, fun _ => rfl⟩
  | SetMergeSmallFileThreshould v =>
    cases ha
    exact ⟨.titandb_options_set_merge_small_file_threshold opts.c (C.uint64_t v),
      rfl, rfl, rfl, fun _ => rfl⟩
  | SetMaxBackgroundGC v =>
    cases ha
    exact ⟨.titandb_options_set_max_background_gc opts.c (C.int32_t v),
      rfl, rfl, rfl, fun _ => rfl⟩
  | SetPurgeObsoleteFilesPeriodSec v =>
    cases ha
    exact ⟨.titandb_options_set_purge_obsolete_files_period_sec opts.c (C.uint v),
      rfl, rfl, rfl, fun _ => rfl⟩
  | SetBlobRunMode v =>
    cases ha
    exact ⟨.titandb_options_set_blob_run_mode opts.c (C.int v),
      rfl, rfl, rfl, fun _ => rfl⟩

theorem Setter.run_of_nil (boolToChar : Bool → Nat) (s : Setter) (opts : TitanOptions)
    (hs : s.converted boolToChar = none) (w : World) : s.run boolToChar opts w = none := by
  cases s with
  | SetCompressionOptions p =>
    cases p with
    | none => rfl
    | some v => cases hs
  | _ => cases hs

theorem C.strread_before_nul (p rest : List Byte) (h : (0 : Byte) ∉ p) :
    C.strread (p ++ 0 :: rest) = p := by
  induction p with
  | nil => simp [C.strread]
  | cons b q ih =>
    have hb : b ≠ 0 := fun hb => h (by simp [hb])
    have hq : (0 : Byte) ∉ q := fun hq => h (List.mem_cons_of_mem _ hq)
    have ih2 := ih hq
    unfold C.strread at ih2 ⊢
    rw [List.cons_append, List.takeWhile_cons, if_pos (by simpa using hb), ih2]

theorem C.strread_CString (s : List Byte) (h : (0 : Byte) ∉ s) : C.strread (C.CString s) = s :=
  C.strread_before_nul s [] h

theorem C.strread_CString_nul (p rest : List Byte) (h : (0 : Byte) ∉ p) :
    C.strread (C.CString (p ++ 0 :: rest)) = p := by
  have : C.CString (p ++ 0 :: rest) = p ++ 0 :: (rest ++ [0]) := by
    simp [C.CString]
  rw [this]
  exact C.strread_before_nul p _ h

/-! ## Run modes -/

/-- C1: the run modes are encoded as Normal = 0, ReadOnly = 1, Fallback = 2, they are pairwise
distinct, the zero value of the type is Normal, and `SetBlobRunMode` hands the native setter
exactly 0, 1 and 2 for the three modes, on the handle of the receiver. -/
theorem SetBlobRunMode_encoding :
    Normal = 0 ∧ ReadOnly = 1 ∧ Fallback = 2 ∧
    Normal ≠ ReadOnly ∧ Normal ≠ Fallback ∧ ReadOnly ≠ Fallback ∧
    (0 : TitanBlobRunMode) = Normal ∧
    ∀ (opts : TitanOptions) (w : World),
      (opts.SetBlobRunMode Normal w).log =
        w.log ++ [NativeCall.titandb_options_set_blob_run_mode opts.c 0] ∧
      (opts.SetBlobRunMode ReadOnly w).log =
        w.log ++ [NativeCall.titandb_options_set_blob_run_mode opts.c 1] ∧
      (opts.SetBlobRunMode Fallback w).log =
        w.log ++ [NativeCall.titandb_options_set_blob_run_mode opts.c 2] := by
  refine ⟨rfl, rfl, rfl, by decide, by decide, by decide, rfl, ?_⟩
  intro opts w
  exact ⟨rfl, rfl, rfl⟩

/-! ## 64-bit unsigned options -/

/-- C2: for every uint64 value `v`, each of `SetMinBlobSize`, `SetMaxGCBatchSize`,
`SetMinGCBatchSize` and `SetMergeSmallFileThreshould` makes the native setter call of the
option of the same name with exactly `v`. -/
theorem uint64_setters_pass_through (opts : TitanOptions) (w : World) (v : Nat)
    (hv : v < 18446744073709551616) :
    (opts.SetMinBlobSize v w).log =
      w.log ++ [NativeCall.titandb_options_set_min_blob_size opts.c v] ∧
    (opts.SetMaxGCBatchSize v w).log =
      w.log ++ [NativeCall.titandb_options_set_max_gc_batch_size opts.c v] ∧
    (opts.SetMinGCBatchSize v w).log =
      w.log ++ [NativeCall.titandb_options_set_min_gc_batch_size opts.c v] ∧
    (opts.SetMergeSmallFileThreshould v w).log =
      w.log ++ [NativeCall.titandb_options_set_merge_small_file_threshold opts.c v] := by
  have h := C.uint64_t_of_fits v hv
  refine ⟨?_, ?_, ?_, ?_⟩
  · show w.log ++ [NativeCall.titandb_options_set_min_blob_size opts.c (C.uint64_t v)] = _
    rw [h]
  · show w.log ++ [NativeCall.titandb_options_set_max_gc_batch_size opts.c (C.uint64_t v)] = _
    rw [h]
  · show w.log ++ [NativeCall.titandb_options_set_min_gc_batch_size opts.c (C.uint64_t v)] = _
    rw [h]
  · show w.log ++ [NativeCall.titandb_options_set_merge_small_file_threshold opts.c
      (C.uint64_t v)] = _
    rw [h]

theorem uint64_setters_pass_through_witness :
    (opts0.SetMinBlobSize 18446744073709551615 World.boot).log =
      World.boot.log ++ [NativeCall.titandb_options_set_min_blob_size opts0.c
        18446744073709551615] :=
  (uint64_setters_pass_through opts0 World.boot 18446744073709551615 (by decide)).1

/-! ## The purge period -/

/-- C3, as stated, fails: for the Go uint value 2^32 the native setter is handed the period 0,
which differs from the value and disables the purge although the value is not 0. -/
theorem SetPurgeObsoleteFilesPeriodSec_counterexample :
    (4294967296 : Nat) < 18446744073709551616 ∧ (4294967296 : Nat) ≠ 0 ∧
    (opts0.SetPurgeObsoleteFilesPeriodSec 4294967296 World.boot).log =
      [NativeCall.titandb_options_set_purge_obsolete_files_period_sec 0 0] ∧
    ((opts0.SetPurgeObsoleteFilesPeriodSec 4294967296 World.boot).heap
      0).purge_obsolete_files_period_sec = 0 := by
  refine ⟨by decide, by decide, ?_, ?_⟩
  · decide
  · decide

/-- C3, amended: `SetPurgeObsoleteFilesPeriodSec(v)` hands the native setter the low 32 bits of
`v`. The period handed over equals `v` exactly when `v < 2^32`, and it is 0 exactly when `v` is
a multiple of 2^32. -/
theorem SetPurgeObsoleteFilesPeriodSec_low_bits (opts : TitanOptions) (w : World) (v : Nat) :
    ∃ p : Nat,
      (opts.SetPurgeObsoleteFilesPeriodSec v w).log =
        w.log ++ [NativeCall.titandb_options_set_purge_obsolete_files_period_sec opts.c p] ∧
      p = v % 4294967296 ∧ (p = v ↔ v < 4294967296) ∧ (p = 0 ↔ 4294967296 ∣ v) := by
  refine ⟨v % 4294967296, rfl, rfl, ?_, ?_⟩
  · constructor
    · intro h
      omega
    · intro h
      exact Nat.mod_eq_of_lt h
  · constructor <;> intro h <;> omega

/-! ## Compression options -/

/-- C4, as stated, fails: a `WindowBits` field of 2^31 reaches the native setter as -2^31,
which is not the value of the field. -/
theorem SetCompressionOptions_counterexample :
    (opts0.SetCompressionOptions
      (some { WindowBits := 2147483648, Level := 1, Strategy := 2, MaxDictBytes := 3,
              ZstdMaxTrainBytes := 4, Enabled := true }) World.boot).map World.log =
      some [NativeCall.titandb_options_set_compression_options 0 (-2147483648) 1 2 3 4] := by
  decide

/-- C4, amended: for every non-nil `CompressionOptions` value, `SetCompressionOptions` returns
and makes one native call with exactly five integers, in the order WindowBits, Level,
Strategy, MaxDictBytes, ZstdMaxTrainBytes, each the corresponding field converted to the native
32-bit int. A field within the 32-bit range is handed over unchanged, the conversion result is
always in that range and congruent to the field modulo 2^32, and no other field of the value
changes the call. -/
theorem SetCompressionOptions_arguments (opts : TitanOptions) (w : World)
    (v : CompressionOptions) :
    ∃ (w1 : World) (a1 a2 a3 a4 a5 : Int),
      opts.SetCompressionOptions (some v) w = some w1 ∧
      w1.log = w.log ++ [NativeCall.titandb_options_set_compression_options opts.c a1 a2 a3 a4 a5] ∧
      a1 = C.int v.WindowBits ∧ a2 = C.int v.Level ∧ a3 = C.int v.Strategy ∧
      a4 = C.int v.MaxDictBytes ∧ a5 = C.int v.ZstdMaxTrainBytes ∧
      (∀ x : Int, -2147483648 ≤ x → x < 2147483648 → C.int x = x) ∧
      (∀ x : Int, -2147483648 ≤ C.int x ∧ C.int x < 2147483648 ∧
        (C.int x - x) % 4294967296 = 0) ∧
      (∀ e : Bool, opts.SetCompressionOptions (some { v with Enabled := e }) w = some w1) :=
  ⟨_, _, _, _, _, _, rfl, rfl, rfl, rfl, rfl, rfl, rfl, C.int_of_fits,
    fun x => ⟨(C.int_range x).1, (C.int_range x).2, C.int_congruent x⟩, fun _ => rfl⟩

theorem SetCompressionOptions_arguments_witness :
    ∃ w1 : World,
      opts0.SetCompressionOptions
        (some { WindowBits := -14, Level := 32767, Strategy := 0, MaxDictBytes := 16384,
                ZstdMaxTrainBytes := 1638400, Enabled := false }) World.boot = some w1 ∧
      w1.log = [NativeCall.titandb_options_set_compression_options 0 (-14) 32767 0 16384
        1638400] := by
  obtain ⟨w1, a1, a2, a3, a4, a5, hrun, hlog, h1, h2, h3, h4, h5, hfit, -, -⟩ :=
    SetCompressionOptions_arguments opts0 World.boot
      { WindowBits := -14, Level := 32767, Strategy := 0, MaxDictBytes := 16384,
        ZstdMaxTrainBytes := 1638400, Enabled := false }
  refine ⟨w1, hrun, ?_⟩
  rw [hlog, h1, h2, h3, h4, h5]
  rw [hfit (-14) (by decide) (by decide), hfit 32767 (by decide) (by decide),
    hfit 0 (by decide) (by decide), hfit 16384 (by decide) (by decide),
    hfit 1638400 (by decide) (by decide)]
  rfl

/-! ## Signed 32-bit options -/

/-- C5: `SetMaxSortedRuns(v)` hands the native setter exactly `v` when `-2^31 <= v < 2^31`; for
every other `v` it hands over a value of the signed 32-bit range that is congruent to `v`
modulo 2^32 and differs from `v`. `SetMaxBackgroundGC(v)` hands over exactly `v` for every
int32 value `v`. -/
theorem SetMaxSortedRuns_conversion (opts : TitanOptions) (w : World) :
    (∀ v : Int, -2147483648 ≤ v → v < 2147483648 →
      (opts.SetMaxSortedRuns v w).log =
        w.log ++ [NativeCall.titandb_options_set_max_sorted_runs opts.c v]) ∧
    (∀ v : Int, ¬ (-2147483648 ≤ v ∧ v < 2147483648) →
      ∃ r : Int,
        (opts.SetMaxSortedRuns v w).log =
          w.log ++ [NativeCall.titandb_options_set_max_sorted_runs opts.c r] ∧
        -2147483648 ≤ r ∧ r < 2147483648 ∧ (r - v) % 4294967296 = 0 ∧ r ≠ v) ∧
    (∀ v : Int, -2147483648 ≤ v → v < 2147483648 →
      (opts.SetMaxBackgroundGC v w).log =
        w.log ++ [NativeCall.titandb_options_set_max_background_gc opts.c v]) := by
  refine ⟨?_, ?_, ?_⟩
  · intro v hlo hhi
    show w.log ++ [NativeCall.titandb_options_set_max_sorted_runs opts.c (C.int v)] = _
    rw [C.int_of_fits v hlo hhi]
  · intro v hv
    refine ⟨C.int v, rfl, (C.int_range v).1, (C.int_range v).2, C.int_congruent v, ?_⟩
    intro h
    have := C.int_range v
    rw [h] at this
    exact hv this
  · intro v hlo hhi
    show w.log ++ [NativeCall.titandb_options_set_max_background_gc opts.c (C.int32_t v)] = _
    rw [C.int32_t_of_fits v hlo hhi]

theorem SetMaxSortedRuns_conversion_witness :
    (opts0.SetMaxSortedRuns 20 World.boot).log =
      World.boot.log ++ [NativeCall.titandb_options_set_max_sorted_runs opts0.c 20] ∧
    (∃ r : Int,
      (opts0.SetMaxSortedRuns 4294967316 World.boot).log =
        World.boot.log ++ [NativeCall.titandb_options_set_max_sorted_runs opts0.c r] ∧
      -2147483648 ≤ r ∧ r < 2147483648 ∧ (r - 4294967316) % 4294967296 = 0 ∧
      r ≠ 4294967316) ∧
    (opts0.SetMaxBackgroundGC (-1) World.boot).log =
      World.boot.log ++ [NativeCall.titandb_options_set_max_background_gc opts0.c (-1)] :=
  ⟨(SetMaxSortedRuns_conversion opts0 World.boot).1 20 (by decide) (by decide),
   (SetMaxSortedRuns_conversion opts0 World.boot).2.1 4294967316 (by decide),
   (SetMaxSortedRuns_conversion opts0 World.boot).2.2 (-1) (by decide) (by decide)⟩

/-! ## Constructors -/

/-- C6: `NewNativeTitanOptions(c)` returns options whose handle is exactly `c`;
`NewDefaultTitanOptions()` is `NewNativeTitanOptions` applied to the handle returned by the
native create call, the create call is the only native call it makes (no setter is called),
and the option object behind the returned handle holds exactly the native defaults. -/
theorem NewDefaultTitanOptions_defaults (defaults : titandb_options_t) (w : World) :
    (∀ c : Handle, (NewNativeTitanOptions c).c = c) ∧
    NewDefaultTitanOptions defaults w =
      (NewNativeTitanOptions (titandb_options_create defaults w).1,
       (titandb_options_create defaults w).2) ∧
    (NewDefaultTitanOptions defaults w).2.log = w.log ++ [NativeCall.titandb_options_create] ∧
    (NewDefaultTitanOptions defaults w).2.heap (NewDefaultTitanOptions defaults w).1.c =
      defaults := by
  refine ⟨fun _ => rfl, rfl, rfl, ?_⟩
  show Function.update w.heap w.next defaults w.next = defaults
  exact Function.update_same _ _ _

/-! ## The value router -/

/-- C7, as stated, fails: in run mode ReadOnly, with `min_blob_size` set to 100 through
`SetMinBlobSize`, a value of 200 bytes is stored inline, not in a blob file. -/
theorem ValueRouter_counterexample :
    (100 : Nat) ≤ 200 ∧
    ValueRouter ((opts0.SetMinBlobSize 100 (opts0.SetBlobRunMode ReadOnly World.boot)).heap
      opts0.c) 200 = Storage.inline := by
  decide

/-- C7, amended: in run mode Normal, with `min_blob_size` set to `t` through
`SetMinBlobSize(t)`, a value goes to blob storage exactly when its length is at least `t` and
is stored inline exactly when its length is below `t`; a value of length exactly `t` goes to
blob storage. In run mode ReadOnly every value is stored inline. -/
theorem ValueRouter_threshold (opts : TitanOptions) (w : World) (t : Nat)
    (ht : t < 18446744073709551616) :
    ((w.heap opts.c).blob_run_mode = (Normal : Int) →
      (∀ len : Nat, t ≤ len →
        ValueRouter ((opts.SetMinBlobSize t w).heap opts.c) len = Storage.blob) ∧
      (∀ len : Nat, len < t →
        ValueRouter ((opts.SetMinBlobSize t w).heap opts.c) len = Storage.inline) ∧
      ValueRouter ((opts.SetMinBlobSize t w).heap opts.c) t = Storage.blob) ∧
    ((w.heap opts.c).blob_run_mode = (ReadOnly : Int) →
      ∀ len : Nat, ValueRouter ((opts.SetMinBlobSize t w).heap opts.c) len = Storage.inline) := by
  have hheap : (opts.SetMinBlobSize t w).heap opts.c = { w.heap opts.c with min_blob_size := t } := by
    show (w.native (NativeCall.titandb_options_set_min_blob_size opts.c (C.uint64_t t))).heap
      opts.c = _
    rw [World.native_heap_self
      (NativeCall.titandb_options_set_min_blob_size opts.c (C.uint64_t t)) w opts.c rfl,
      C.uint64_t_of_fits t ht]
    rfl
  rw [hheap]
  constructor
  · intro hmode
    have hne : ¬ ((w.heap opts.c).blob_run_mode = (ReadOnly : Int)) := by
      rw [hmode]
      decide
    refine ⟨?_, ?_, ?_⟩
    · intro len hlen
      unfold ValueRouter
      rw [if_neg hne, if_neg (Nat.not_lt.mpr hlen)]
    · intro len hlen
      unfold ValueRouter
      rw [if_neg hne, if_pos hlen]
    · unfold ValueRouter
      rw [if_neg hne, if_neg (Nat.lt_irrefl t)]
  · intro hmode len
    unfold ValueRouter
    rw [if_pos hmode]

theorem ValueRouter_threshold_witness :
    ValueRouter ((opts0.SetMinBlobSize 100 World.boot).heap opts0.c) 200 = Storage.blob ∧
    ValueRouter ((opts0.SetMinBlobSize 100 World.boot).heap opts0.c) 50 = Storage.inline ∧
    ValueRouter ((opts0.SetMinBlobSize 100 World.boot).heap opts0.c) 100 = Storage.blob :=
  have h := (ValueRouter_threshold opts0 World.boot 100 (by decide)).1 (by decide)
  ⟨h.1 200 (by decide), h.2.1 50 (by decide), h.2.2⟩

/-! ## The frame of a setter -/

/-- C8, as stated, fails: `SetCompressionOptions` called with a nil pointer panics on the
dereference of its argument and makes no native call at all. -/
theorem SetCompressionOptions_nil_counterexample :
    opts0.SetCompressionOptions none World.boot = none ∧
    (Setter.SetCompressionOptions none).run (fun b => if b then 1 else 0) opts0 World.boot =
      none :=
  ⟨rfl, rfl⟩

/-- C8, amended: a setter invocation whose argument is a nil pointer panics before any native
call. Every other setter invocation returns and makes exactly one native call, a setter call
on the handle of the receiver, for the option the setter is named after, with the converted
argument. Afterwards that field of the option object holds the converted argument, every
other field of the object and every other object is unchanged. Setting the same option twice
leaves the objects as the second call alone does, and two setters for different options leave
the same objects in either order. -/
theorem setter_frame (boolToChar : Bool → Nat) (s : Setter) (opts : TitanOptions) (w : World) :
    (s.converted boolToChar = none → s.run boolToChar opts w = none) ∧
    (∀ a : FieldValue, s.converted boolToChar = some a →
      ∃ (k : NativeCall) (w1 : World),
        s.run boolToChar opts w = some w1 ∧
        w1.log = w.log ++ [k] ∧ k.handle = some opts.c ∧ k.option = some s.option ∧
        k.argument = a ∧
        getField s.option (w1.heap opts.c) = a ∧
        (∀ o : OptionName, o ≠ s.option →
          getField o (w1.heap opts.c) = getField o (w.heap opts.c)) ∧
        (∀ c : Handle, c ≠ opts.c → w1.heap c = w.heap c) ∧
        w1.next = w.next ∧
        (∀ t : Setter, t.option = s.option →
          ((s.run boolToChar opts w).bind (t.run boolToChar opts)).map World.heap =
            (t.run boolToChar opts w).map World.heap) ∧
        (∀ t : Setter, t.option ≠ s.option →
          ((s.run boolToChar opts w).bind (t.run boolToChar opts)).map World.heap =
            ((t.run boolToChar opts w).bind (s.run boolToChar opts)).map World.heap)) := by
  refine ⟨fun hs => Setter.run_of_nil boolToChar s opts hs w, ?_⟩
  intro a ha
  obtain ⟨k, hk, ho, harg, hrun⟩ := Setter.run_of_converted boolToChar s opts a ha
  refine ⟨k, w.native k, hrun w, World.native_log k w, hk, ho, harg, ?_, ?_, ?_,
    World.native_next k w, ?_, ?_⟩
  · rw [World.native_heap_self k w opts.c hk, getField_store, if_pos ho, harg]
  · intro o hne
    have hno : ¬ k.option = some o := by
      rw [ho]
      intro h
      exact hne (Option.some.inj h).symm
    rw [World.native_heap_self k w opts.c hk, getField_store, if_neg hno]
  · intro c hc
    exact World.native_heap_other k w opts.c c hk hc
  · intro t ht
    rw [hrun w]
    show (t.run boolToChar opts (w.native k)).map World.heap = _
    cases hc : t.converted boolToChar with
    | none =>
      rw [Setter.run_of_nil boolToChar t opts hc, Setter.run_of_nil boolToChar t opts hc]
    | some b =>
      obtain ⟨kt, hkt, hot, -, hrunt⟩ := Setter.run_of_converted boolToChar t opts b hc
      rw [hrunt, hrunt]
      show some ((w.native k).native kt).heap = some (w.native kt).heap
      rw [World.native_native_heap k kt w opts.c hk hkt, World.native_heap kt w opts.c hkt,
        NativeCall.store_overwrite k kt _ s.option ho (ht ▸ hot)]
  · intro t ht
    rw [hrun w]
    show (t.run boolToChar opts (w.native k)).map World.heap = _
    cases hc : t.converted boolToChar with
    | none =>
      rw [Setter.run_of_nil boolToChar t opts hc, Setter.run_of_nil boolToChar t opts hc]
      rfl
    | some b =>
      obtain ⟨kt, hkt, hot, -, hrunt⟩ := Setter.run_of_converted boolToChar t opts b hc
      rw [hrunt, hrunt]
      show some ((w.native k).native kt).heap =
        (s.run boolToChar opts (w.native kt)).map World.heap
      rw [hrun]
      show some ((w.native k).native kt).heap = some ((w.native kt).native k).heap
      rw [World.native_native_heap k kt w opts.c hk hkt,
        World.native_native_heap kt k w opts.c hkt hk,
        NativeCall.store_comm k kt _ s.option t.option ho hot (Ne.symm ht)]

theorem setter_frame_witness :
    ∃ (k : NativeCall) (w1 : World),
      (Setter.SetSampleFileSizeRatio 4591870180066957722).run (fun b => if b then 1 else 0)
        opts0 World.boot = some w1 ∧
      w1.log = World.boot.log ++ [k] ∧
      k.argument = FieldValue.nat 4591870180066957722 ∧
      getField OptionName.sample_file_size_ratio (w1.heap opts0.c) =
        FieldValue.nat 4591870180066957722 := by
  obtain ⟨k, w1, hrun, hlog, -, -, harg, hfield, -⟩ :=
    (setter_frame (fun b => if b then 1 else 0)
      (Setter.SetSampleFileSizeRatio 4591870180066957722) opts0 World.boot).2
      (FieldValue.nat 4591870180066957722) rfl
  exact ⟨k, w1, hrun, hlog, harg, hfield⟩

/-! ## The directory name -/

/-- C9: `SetDirname` hands the native setter a NUL-terminated copy of the string. For a string
without a zero byte the native side stores exactly its bytes; for a string with a zero byte
it stores only the bytes before the first zero byte, so two strings that agree up to their
first zero byte set the same directory. -/
theorem SetDirname_nul_terminated (opts : TitanOptions) (w : World) :
    (∀ value : List Byte, (opts.SetDirname value w).log =
      w.log ++ [NativeCall.titandb_options_set_dirname opts.c (value ++ [0])]) ∧
    (∀ value : List Byte, (0 : Byte) ∉ value →
      ((opts.SetDirname value w).heap opts.c).dirname = value) ∧
    (∀ p rest : List Byte, (0 : Byte) ∉ p →
      ((opts.SetDirname (p ++ 0 :: rest) w).heap opts.c).dirname = p) ∧
    (∀ p r1 r2 : List Byte, (0 : Byte) ∉ p →
      (opts.SetDirname (p ++ 0 :: r1) w).heap = (opts.SetDirname (p ++ 0 :: r2) w).heap) := by
  have hheap : ∀ value : List Byte, (opts.SetDirname value w).heap =
      Function.update w.heap opts.c
        { w.heap opts.c with dirname := C.strread (C.CString value) } := by
    intro value
    exact World.native_heap _ w opts.c rfl
  refine ⟨fun _ => rfl, ?_, ?_, ?_⟩
  · intro value hv
    rw [hheap, Function.update_same, C.strread_CString value hv]
  · intro p rest hp
    rw [hheap, Function.update_same, C.strread_CString_nul p rest hp]
  · intro p r1 r2 hp
    rw [hheap, hheap, C.strread_CString_nul p r1 hp, C.strread_CString_nul p r2 hp]

theorem SetDirname_nul_terminated_witness :
    ((opts0.SetDirname [47, 100, 98] World.boot).heap opts0.c).dirname = [47, 100, 98] ∧
    ((opts0.SetDirname ([47, 100] ++ 0 :: [98]) World.boot).heap opts0.c).dirname = [47, 100] ∧
    (opts0.SetDirname ([47, 100] ++ 0 :: [98]) World.boot).heap =
      (opts0.SetDirname ([47, 100] ++ 0 :: [99, 99]) World.boot).heap :=
  ⟨(SetDirname_nul_terminated opts0 World.boot).2.1 [47, 100, 98] (by decide),
   (SetDirname_nul_terminated opts0 World.boot).2.2.1 [47, 100] [98] (by decide),
   (SetDirname_nul_terminated opts0 World.boot).2.2.2 [47, 100] [98] [99, 99] (by decide)⟩

/-! ## The two batch sizes -/

/-- C10: for every pair of uint64 values `a` and `b`, whatever their order,
`SetMaxGCBatchSize(a)` followed by `SetMinGCBatchSize(b)` makes the two native setter calls
with `a` and `b` and leaves the option object with `max_gc_batch_size = a` and
`min_gc_batch_size = b`; the second call does not touch the first bound, and both calls
return a state (there is no error result). -/
theorem GCBatchSize_unvalidated (opts : TitanOptions) (w : World) (a b : Nat)
    (ha : a < 18446744073709551616) (hb : b < 18446744073709551616) :
    (opts.SetMinGCBatchSize b (opts.SetMaxGCBatchSize a w)).log =
      w.log ++ [NativeCall.titandb_options_set_max_gc_batch_size opts.c a,
                NativeCall.titandb_options_set_min_gc_batch_size opts.c b] ∧
    ((opts.SetMaxGCBatchSize a w).heap opts.c).max_gc_batch_size = a ∧
    ((opts.SetMinGCBatchSize b (opts.SetMaxGCBatchSize a w)).heap opts.c).max_gc_batch_size = a ∧
    ((opts.SetMinGCBatchSize b (opts.SetMaxGCBatchSize a w)).heap opts.c).min_gc_batch_size = b := by
  have h1 : opts.SetMaxGCBatchSize a w =
      w.native (NativeCall.titandb_options_set_max_gc_batch_size opts.c a) := by
    show w.native (NativeCall.titandb_options_set_max_gc_batch_size opts.c (C.uint64_t a)) = _
    rw [C.uint64_t_of_fits a ha]
  have h2 : ∀ w0 : World, opts.SetMinGCBatchSize b w0 =
      w0.native (NativeCall.titandb_options_set_min_gc_batch_size opts.c b) := by
    intro w0
    show w0.native (NativeCall.titandb_options_set_min_gc_batch_size opts.c (C.uint64_t b)) = _
    rw [C.uint64_t_of_fits b hb]
  rw [h1, h2]
  refine ⟨?_, ?_, ?_, ?_⟩
  · rw [World.native_log, World.native_log, List.append_assoc]
    rfl
  · rw [World.native_heap_self
      (NativeCall.titandb_options_set_max_gc_batch_size opts.c a) w opts.c rfl]
    rfl
  · rw [World.native_heap_self
      (NativeCall.titandb_options_set_min_gc_batch_size opts.c b) _ opts.c rfl,
      World.native_heap_self
      (NativeCall.titandb_options_set_max_gc_batch_size opts.c a) w opts.c rfl]
    rfl
  · rw [World.native_heap_self
      (NativeCall.titandb_options_set_min_gc_batch_size opts.c b) _ opts.c rfl]
    rfl

theorem GCBatchSize_unvalidated_witness :
    (1 : Nat) < 2 ∧
    ((opts0.SetMinGCBatchSize 2 (opts0.SetMaxGCBatchSize 1 World.boot)).heap
      opts0.c).max_gc_batch_size = 1 ∧
    ((opts0.SetMinGCBatchSize 2 (opts0.SetMaxGCBatchSize 1 World.boot)).heap
      opts0.c).min_gc_batch_size = 2 :=
  ⟨by decide,
   (GCBatchSize_unvalidated opts0 World.boot 1 2 (by decide) (by decide)).2.2.1,
   (GCBatchSize_unvalidated opts0 World.boot 1 2 (by decide) (by decide)).2.2.2⟩

end Titan
